import Mathlib

/-!
Shallow embedding of the laboRARE-engine backend (FastAPI glue over the
Mistral SDK) and proofs about its validation, mapping, conversation
derivation, streaming relay and resource-cleanup behaviour.

Sources embedded:
  - backend/utils/file_validator.py   (FileValidator)
  - backend/utils/response_formatter.py (ResponseFormatter)
  - backend/services/mistral_service.py (MistralService.get_signed_url)
  - backend/main.py (upload_document, retrieve_document, query_ocr,
    query_document, query_document_conversation, query_document_stream,
    health_check)

Python conventions modelled explicitly: a possibly-absent attribute is an
`Option`; Python truthiness of a string is "not the empty string"; Python
truthiness of an optional int is "present and nonzero"; an exception that
aborts the handler is an `Except.error` / `Option.none` result.
-/

namespace LaboRare

/-! ## FileValidator (backend/utils/file_validator.py) -/

/-- `str.lower()` as used by `validate_pdf`: character-wise lowercasing. -/
def pythonLower (s : String) : String :=
  String.mk (s.data.map Char.toLower)

/-- `str.endswith(t)`: the characters of `t` are a suffix of the
characters of `s`. -/
def strEndsWith (s t : String) : Bool :=
  t.data.isSuffixOf s.data

/-- `FileValidator.validate_pdf(file, max_size_mb)`.
`filename` is `UploadFile.filename : Optional[str]`; Python's
`if not file.filename` is true for `None` and for the empty string.
`max_size_mb` is accepted and unused, exactly as in the source. -/
def validate_pdf (filename : Option String) (max_size_mb : Nat) : Bool × String :=
  match filename with
  | none => (false, "filename is required")
  | some f =>
    if f = "" then (false, "filename is required")
    else if ¬ (strEndsWith (pythonLower f) ".pdf" = true) then
      (false, "only pdf files are supported")
    else (true, "")

/-- `FileValidator.validate_file_size(content, max_size_mb)`:
content is a byte string, modelled as a list of bytes. -/
def validate_file_size (content : List Nat) (max_size_mb : Nat) : Bool × String :=
  let max_size_bytes := max_size_mb * 1024 * 1024
  if content.length > max_size_bytes then
    (false, "file size exceeds " ++ toString max_size_mb ++ "mb limit")
  else if content.length = 0 then
    (false, "file is empty")
  else
    (true, "")

/-! ## MistralService.get_signed_url (backend/services/mistral_service.py) -/

/-- The request shape forwarded to `client.files.get_signed_url`:
`expiry = none` means the keyword argument was omitted, so the provider's
default expiry applies. -/
structure SignedUrlRequest where
  file_id : String
  expiry : Option Int
deriving DecidableEq, Repr

/-- Python truthiness of `expiry_hours : Optional[int]`. -/
def truthyOptInt : Option Int → Bool
  | none => false
  | some n => if n = 0 then false else true

/-- `MistralService.get_signed_url(file_id, expiry_hours)`: the provider
call it issues, `if expiry_hours:` forwarding `expiry` only when the hint
is truthy. -/
def get_signed_url (file_id : String) (expiry_hours : Option Int) : SignedUrlRequest :=
  if truthyOptInt expiry_hours then
    { file_id := file_id, expiry := expiry_hours }
  else
    { file_id := file_id, expiry := none }

/-! ## Provider file objects and their mappings (backend/main.py) -/

/-- A provider file object as the handlers read it: attributes read with
plain dot access are required; attributes read through
`getattr(obj, attr, default)` may be absent and are `Option`s. -/
structure ProviderFile where
  id : String
  object : String
  bytes : Option Nat
  created_at : Nat
  filename : String
  purpose : String
  sample_type : Option String
  num_lines : Option Nat
  mimetype : Option String
  source : Option String
  signature : Option String
  deleted : Option Bool
deriving DecidableEq, Repr

/-- `FileUploadResponse` schema (backend/schemas.py). -/
structure FileUploadResponse where
  id : String
  object : String
  bytes : Nat
  created_at : Nat
  filename : String
  purpose : String
  sample_type : String
  num_lines : Nat
  mimetype : String
  source : String
  signature : String
deriving DecidableEq, Repr

/-- `FileRetrieveResponse` schema (backend/schemas.py). -/
structure FileRetrieveResponse where
  id : String
  object : String
  bytes : Nat
  created_at : Nat
  filename : String
  purpose : String
  sample_type : String
  num_lines : Nat
  mimetype : String
  source : String
  signature : String
  deleted : Bool
deriving DecidableEq, Repr

/-- The `FileUploadResponse` built by `upload_document` (main.py lines
129-142). `len_content` is `len(content)`, the locally measured length of
the uploaded bytes, the fallback for an absent `bytes` attribute. -/
def upload_document_response (uploaded : ProviderFile) (len_content : Nat) :
    FileUploadResponse :=
  { id := uploaded.id
    object := uploaded.object
    bytes := uploaded.bytes.getD len_content
    created_at := uploaded.created_at
    filename := uploaded.filename
    purpose := uploaded.purpose
    sample_type := uploaded.sample_type.getD "ocr_input"
    num_lines := uploaded.num_lines.getD 0
    mimetype := uploaded.mimetype.getD "application/pdf"
    source := uploaded.source.getD "upload"
    signature := uploaded.signature.getD "" }

/-- The `FileRetrieveResponse` built by `retrieve_document` (main.py lines
207-220): the same defaults, except that an absent byte count falls back
to 0 — only the upload handler measures a local content length. -/
def retrieve_document_response (retrieved : ProviderFile) : FileRetrieveResponse :=
  { id := retrieved.id
    object := retrieved.object
    bytes := retrieved.bytes.getD 0
    created_at := retrieved.created_at
    filename := retrieved.filename
    purpose := retrieved.purpose
    sample_type := retrieved.sample_type.getD "ocr_input"
    num_lines := retrieved.num_lines.getD 0
    mimetype := retrieved.mimetype.getD "application/pdf"
    source := retrieved.source.getD "upload"
    signature := retrieved.signature.getD ""
    deleted := retrieved.deleted.getD false }

/-! ## Conversation derivation (backend/main.py, query_document_conversation) -/

/-- `ConversationMessage` schema (backend/schemas.py); also the shape of
the `{"role": .., "content": ..}` history dicts the handler builds. -/
structure ConversationMessage where
  role : String
  content : String
deriving DecidableEq, Repr

/-- The two HTTP 400 aborts of the derivation:
`lastNotUser` = "last message must be from user",
`noUserMessage` = "no user message found". -/
inductive DerivationError where
  | lastNotUser
  | noUserMessage
deriving DecidableEq, Repr

/-- The history-building loop of `query_document_conversation` (main.py
lines 376-389): every message except the last is appended iff its role is
"user" or "assistant"; anything else is silently dropped. -/
def conversation_history_of (messages : List ConversationMessage) :
    List ConversationMessage :=
  messages.dropLast.filter (fun msg => decide (msg.role = "user" ∨ msg.role = "assistant"))

/-- The derivation `query_document_conversation` performs (main.py lines
374-406) before any adapter call: the current question and the history on
success, or the HTTP 400 it raises. Python's `if not last_user_message`
treats an empty content string like no user message at all. -/
def deriveConversation (messages : List ConversationMessage) :
    Except DerivationError (String × List ConversationMessage) :=
  let conversation_history := conversation_history_of messages
  match messages.getLast? with
  | none => Except.error DerivationError.noUserMessage
  | some last_msg =>
    if last_msg.role = "user" then
      if last_msg.content = "" then
        Except.error DerivationError.noUserMessage
      else
        Except.ok (last_msg.content, conversation_history)
    else
      Except.error DerivationError.lastNotUser

/-- The provider call of `query_document_conversation` (main.py lines
408-414): `none` when the handler aborts with an HTTP 400 before the
adapter is reached; on success the question together with the forwarded
history, where `conversation_history if conversation_history else None`
sends an empty history as an absent argument. -/
def conversation_provider_call (messages : List ConversationMessage) :
    Option (String × Option (List ConversationMessage)) :=
  match deriveConversation messages with
  | Except.error _ => none
  | Except.ok (question, history) =>
      some (question, if history = [] then none else some history)

/-! ## Streaming relay (backend/main.py, query_document_stream.generate) -/

/-- `chunk.data.choices[i].delta`: `content` is absent, `None` or a
string; absence and `None` coincide in this model since the relay tests
`hasattr(delta, 'content') and delta.content`. -/
structure StreamDelta where
  content : Option String
deriving DecidableEq, Repr

structure StreamChoice where
  delta : StreamDelta
deriving DecidableEq, Repr

structure StreamChunkData where
  choices : List StreamChoice
deriving DecidableEq, Repr

structure StreamChunk where
  data : StreamChunkData
deriving DecidableEq, Repr

/-- The two server-sent event frames `generate` yields:
`content s` is `data: {"content": s}` and `done` is `data: {"done": true}`. -/
inductive SSEEvent where
  | content (text : String)
  | done
deriving DecidableEq, Repr

/-- The text an upstream increment carries, exactly as `generate` reads
it: the first choice's delta content, when choices are non-empty and the
content is present and truthy (non-empty). -/
def chunkContent (chunk : StreamChunk) : Option String :=
  match chunk.data.choices with
  | [] => none
  | choice :: _ =>
    match choice.delta.content with
    | some s => if s = "" then none else some s
    | none => none

/-- The `generate` inner generator of `query_document_stream` (main.py
lines 459-469): one content event per increment carrying truthy text,
then a single completion signal after the upstream stream is exhausted. -/
def generate : List StreamChunk → List SSEEvent
  | [] => [SSEEvent.done]
  | chunk :: rest =>
    match chunkContent chunk with
    | some s => SSEEvent.content s :: generate rest
    | none => generate rest

/-! ## Q&A response mapping (backend/utils/response_formatter.py and
backend/main.py, query_document) -/

structure ChatMessage where
  content : String
deriving DecidableEq, Repr

structure ChatChoice where
  message : ChatMessage
deriving DecidableEq, Repr

/-- The provider's usage counters. -/
structure Usage where
  prompt_tokens : Nat
  completion_tokens : Nat
  total_tokens : Nat
deriving DecidableEq, Repr

/-- A chat completion response: `usage` is `Option` because the mapping
reads `chat_response.usage.prompt_tokens` with no fallback — an absent
usage object raises and aborts the handler. -/
structure ChatResponse where
  choices : List ChatChoice
  model : String
  usage : Option Usage
deriving DecidableEq, Repr

/-- The mapped Q&A record (`DocumentQAResponse` schema /
`ResponseFormatter.format_qa_response` dict). -/
structure QAResponse where
  answer : String
  model : String
  usage : Usage
  file_id : String
  question : String
deriving DecidableEq, Repr

/-- `ResponseFormatter.format_qa_response(chat_response, file_id,
question)`, identically the mapping inlined in `query_document` (main.py
lines 343-355): `choices[0]` raises on an empty list and `usage.<counter>`
raises when the usage object is absent; either exception aborts the
mapping, so the result is `none` — no default is substituted. -/
def format_qa_response (chat_response : ChatResponse) (file_id question : String) :
    Option QAResponse :=
  match chat_response.choices, chat_response.usage with
  | choice :: _, some u =>
      some { answer := choice.message.content
             model := chat_response.model
             usage := u
             file_id := file_id
             question := question }
  | _, _ => none

/-! ## OCR page mapping (backend/utils/response_formatter.py) -/

/-- A provider OCR page: `image_base64` is absent, `None`, empty or a
payload; absence and `None` coincide here since the mapping tests
`hasattr(page, 'image_base64') and page.image_base64`. -/
structure OCRSourcePage where
  index : Nat
  markdown : String
  image_base64 : Option String
deriving DecidableEq, Repr

/-- One formatted page dict: `image_base64 = none` means the key is not
in the dict. -/
structure FormattedOCRPage where
  index : Nat
  markdown : String
  image_base64 : Option String
deriving DecidableEq, Repr

/-- One iteration of the `ResponseFormatter.format_ocr_pages` loop: the
`image_base64` key is added iff the source attribute is present and
truthy (non-empty). -/
def format_ocr_page (page : OCRSourcePage) : FormattedOCRPage :=
  { index := page.index
    markdown := page.markdown
    image_base64 :=
      match page.image_base64 with
      | some s => if s = "" then none else some s
      | none => none }

/-- `ResponseFormatter.format_ocr_pages(pages)`: the appending loop over
the page sequence. -/
def format_ocr_pages : List OCRSourcePage → List FormattedOCRPage
  | [] => []
  | page :: rest => format_ocr_page page :: format_ocr_pages rest

/-! ## Upload staging (backend/main.py, upload_document lines 114-127) -/

/-- Python `try: body finally: cleanup` over an explicit state: the
body's outcome — normal or exceptional — passes through unchanged and the
cleanup runs on the state either way. -/
def tryFinally {σ α : Type} (body : σ → Except String α × σ)
    (cleanup : σ → σ) (s : σ) : Except String α × σ :=
  let r := body s
  (r.1, cleanup r.2)

/-- The `finally` block (main.py lines 125-127): `if os.path.exists(p):
os.unlink(p)` on the one-temp-file state, `true` = the staged file exists
on disk. -/
def cleanup_temp_file (tmp_exists : Bool) : Bool :=
  if tmp_exists then false else tmp_exists

/-- The staging section of `upload_document` (main.py lines 114-127):
`tempfile.NamedTemporaryFile(delete=False)` writes the content, making
the state `true`; then the adapter upload runs under `try` with the
cleanup in `finally`. `upload_file` is the adapter call's outcome,
arbitrary success or failure. Returns the upload outcome and whether the
temporary file still exists afterwards. -/
def upload_document_staging (upload_file : Except String ProviderFile) :
    Except String ProviderFile × Bool :=
  let tmp_exists := true
  tryFinally (fun s => (upload_file, s)) cleanup_temp_file tmp_exists

/-! ## The surface when the adapter failed to initialize (backend/main.py) -/

/-- The HTTP endpoints of main.py. -/
inductive Endpoint where
  | root
  | upload_document
  | list_documents
  | retrieve_document
  | delete_document
  | signed_url
  | query_ocr
  | query_document
  | query_document_conversation
  | query_document_stream
  | query_document_conversation_stream
  | health_check
deriving DecidableEq, Repr

/-- What a handler returns before touching the adapter: an
`HTTPException`, the static root document, or the health report. -/
inductive HandlerResult where
  | httpError (status_code : Nat) (detail : String)
  | rootInfo
  | healthReport (status : String) (mistral_service_initialized : Bool)
deriving DecidableEq, Repr

/-- backend/main.py with `mistral_service = None` (adapter construction
failed at startup, main.py lines 50-54): each handler's result, paired
with whether any provider operation is invoked. Every provider-backed
handler begins with `if not mistral_service: raise HTTPException(500,
"mistral service not initialized")`; `root` and `health_check` have no
such guard — `health_check` reports the uninitialized adapter instead
(main.py lines 556-562). -/
def handleWithoutService : Endpoint → HandlerResult × Bool
  | Endpoint.root => (HandlerResult.rootInfo, false)
  | Endpoint.health_check => (HandlerResult.healthReport "healthy" false, false)
  | _ => (HandlerResult.httpError 500 "mistral service not initialized", false)

end LaboRare

namespace LaboRare

/-! ## Theorems: validators and signed URL -/

/-- C7: a missing (or empty, which Python's truthiness test conflates with
missing) filename fails with the MissingFilename message before any
extension check; a present filename passes the extension check iff its
lowercasing ends in ".pdf", and otherwise fails with the UnsupportedType
message. -/
theorem validate_pdf_extension (f : String) (m : Nat) (hf : f ≠ "") :
    (validate_pdf (some f) m = (true, "") ↔ strEndsWith (pythonLower f) ".pdf" = true)
    ∧ (strEndsWith (pythonLower f) ".pdf" = false →
        validate_pdf (some f) m = (false, "only pdf files are supported"))
    ∧ validate_pdf none m = (false, "filename is required")
    ∧ validate_pdf (some "") m = (false, "filename is required") := by
  have hv : validate_pdf (some f) m =
      if strEndsWith (pythonLower f) ".pdf" = true then (true, "")
      else (false, "only pdf files are supported") := by
    by_cases hE : strEndsWith (pythonLower f) ".pdf" = true <;>
      simp [validate_pdf, hf, hE]
  refine ⟨?_, ?_, rfl, rfl⟩
  · rw [hv]
    by_cases hE : strEndsWith (pythonLower f) ".pdf" = true <;> simp [hE]
  · intro h
    rw [hv, h]
    simp

/-- Witness for C7 at concrete filenames. -/
theorem validate_pdf_extension_witness :
    validate_pdf (some "Report.PDF") 50 = (true, "")
    ∧ validate_pdf (some "notes.txt") 50 = (false, "only pdf files are supported") := by
  constructor
  · exact (validate_pdf_extension "Report.PDF" 50 (by decide)).1.mpr (by decide)
  · exact (validate_pdf_extension "notes.txt" 50 (by decide)).2.1 (by decide)

/-- C6: size-validation boundaries for a positive configured maximum:
empty content fails with the EmptyFile message, content exactly at
`max_size_mb * 1048576` bytes passes, and one byte over fails with the
FileTooLarge message. -/
theorem validate_file_size_boundaries (max_size_mb : Nat) (hm : 0 < max_size_mb)
    (c0 cMax cOver : List Nat)
    (h0 : c0.length = 0)
    (hMax : cMax.length = max_size_mb * 1048576)
    (hOver : cOver.length = max_size_mb * 1048576 + 1) :
    validate_file_size c0 max_size_mb = (false, "file is empty")
    ∧ validate_file_size cMax max_size_mb = (true, "")
    ∧ validate_file_size cOver max_size_mb
        = (false, "file size exceeds " ++ toString max_size_mb ++ "mb limit") := by
  refine ⟨?_, ?_, ?_⟩
  · simp [validate_file_size, h0]
  · have h1 : ¬ (cMax.length > max_size_mb * 1024 * 1024) := by
      rw [hMax]; omega
    have h2 : ¬ (cMax.length = 0) := by
      rw [hMax]; omega
    simp [validate_file_size, h1, h2]
  · have h1 : cOver.length > max_size_mb * 1024 * 1024 := by
      rw [hOver]; omega
    simp [validate_file_size, h1]

/-- Witness for C6 at `max_size_mb = 1`. -/
theorem validate_file_size_boundaries_witness :
    validate_file_size [] 1 = (false, "file is empty")
    ∧ validate_file_size (List.replicate 1048576 0) 1 = (true, "")
    ∧ validate_file_size (List.replicate 1048577 0) 1
        = (false, "file size exceeds " ++ toString 1 ++ "mb limit") :=
  validate_file_size_boundaries 1 (by decide) [] (List.replicate 1048576 0)
    (List.replicate 1048577 0) rfl (by rw [List.length_replicate])
    (by rw [List.length_replicate])

/-- C10: an expiry hint of 0 hours is forwarded identically to an absent
hint — no expiry is sent, so the provider default applies; a nonzero hint
is forwarded verbatim. -/
theorem get_signed_url_expiry (fid : String) :
    (get_signed_url fid none).expiry = none
    ∧ (get_signed_url fid (some 0)).expiry = none
    ∧ get_signed_url fid (some 0) = get_signed_url fid none
    ∧ ∀ n : Int, n ≠ 0 → (get_signed_url fid (some n)).expiry = some n := by
  refine ⟨rfl, rfl, rfl, ?_⟩
  intro n hn
  unfold get_signed_url truthyOptInt
  simp [hn]

/-- Witness for C10 at a concrete file id and a 24-hour hint. -/
theorem get_signed_url_expiry_witness :
    (get_signed_url "file-abc123def" (some 24)).expiry = some 24 :=
  (get_signed_url_expiry "file-abc123def").2.2.2 24 (by decide)

/-- C1: mapping a provider file object with every optional attribute
present reproduces each attribute unchanged; mapping one with every
optional attribute absent substitutes the documented default for each —
mimetype "application/pdf", source "upload", sample_type "ocr_input",
num_lines 0, signature "", and the byte count falls back to the locally
measured content length; the retrieve mapping instead defaults an absent
byte count to 0, so the measured-length fallback applies at upload time
only. -/
theorem upload_metadata_roundtrip
    (idv obj fn pur : String) (ca lenC b nl : Nat) (st mt srcv sig : String)
    (dl : Option Bool) :
    upload_document_response
        ⟨idv, obj, some b, ca, fn, pur, some st, some nl, some mt, some srcv, some sig, dl⟩
        lenC
      = ⟨idv, obj, b, ca, fn, pur, st, nl, mt, srcv, sig⟩
    ∧ upload_document_response
        ⟨idv, obj, none, ca, fn, pur, none, none, none, none, none, dl⟩ lenC
      = ⟨idv, obj, lenC, ca, fn, pur, "ocr_input", 0, "application/pdf", "upload", ""⟩
    ∧ (retrieve_document_response
        ⟨idv, obj, none, ca, fn, pur, none, none, none, none, none, dl⟩).bytes = 0 :=
  ⟨rfl, rfl, rfl⟩

/-- Helper for C2: when every message's role is "user" or "assistant",
the history loop keeps all messages but the last, in order. -/
theorem conversation_history_of_wellRoled (messages : List ConversationMessage)
    (hw : ∀ m ∈ messages, m.role = "user" ∨ m.role = "assistant") :
    conversation_history_of messages = messages.dropLast := by
  unfold conversation_history_of
  apply List.filter_eq_self.mpr
  intro a ha
  exact decide_eq_true (hw a (List.dropLast_subset messages ha))

/-- C2 counterexample: for the non-empty message list `[user:""]` — last
role is "user" — the claim requires the derived question to be that last
message's content (the empty string); the code instead fails, because
`if not last_user_message` conflates empty content with no user message,
and no provider call is made. -/
theorem conversation_empty_content_cex :
    deriveConversation [⟨"user", ""⟩] = Except.error DerivationError.noUserMessage
    ∧ conversation_provider_call [⟨"user", ""⟩] = none :=
  ⟨rfl, rfl⟩

/-- C2 (amended): for every non-empty message list of user/assistant
turns whose last message has role "user" and non-empty content, the
derived current question is that content and all earlier turns become the
history in original order; if the last role is not "user", or the last
content is empty, derivation fails with an HTTP 400 and no provider call
is made. -/
theorem conversation_derivation (messages : List ConversationMessage)
    (last_msg : ConversationMessage)
    (hw : ∀ m ∈ messages, m.role = "user" ∨ m.role = "assistant")
    (hlast : messages.getLast? = some last_msg) :
    (last_msg.role = "user" → last_msg.content ≠ "" →
        deriveConversation messages
          = Except.ok (last_msg.content, messages.dropLast))
    ∧ (last_msg.role ≠ "user" →
        deriveConversation messages = Except.error DerivationError.lastNotUser
        ∧ conversation_provider_call messages = none)
    ∧ (last_msg.role = "user" → last_msg.content = "" →
        deriveConversation messages = Except.error DerivationError.noUserMessage
        ∧ conversation_provider_call messages = none) := by
  have hh := conversation_history_of_wellRoled messages hw
  refine ⟨?_, ?_, ?_⟩
  · intro h1 h2
    simp only [deriveConversation]
    rw [hlast, hh]
    simp [h1, h2]
  · intro h1
    have hd : deriveConversation messages = Except.error DerivationError.lastNotUser := by
      simp only [deriveConversation]
      rw [hlast]
      simp [h1]
    exact ⟨hd, by simp [conversation_provider_call, hd]⟩
  · intro h1 h2
    have hd : deriveConversation messages = Except.error DerivationError.noUserMessage := by
      simp only [deriveConversation]
      rw [hlast]
      simp [h1, h2]
    exact ⟨hd, by simp [conversation_provider_call, hd]⟩

/-- Witness for C2 at the spec's own example conversation. -/
theorem conversation_derivation_witness :
    deriveConversation [⟨"user", "A"⟩, ⟨"assistant", "B"⟩, ⟨"user", "C"⟩]
      = Except.ok ("C", [⟨"user", "A"⟩, ⟨"assistant", "B"⟩]) := by
  have h := (conversation_derivation
      [⟨"user", "A"⟩, ⟨"assistant", "B"⟩, ⟨"user", "C"⟩] ⟨"user", "C"⟩
      (by decide) rfl).1 rfl (by decide)
  simpa using h

/-- C3: the relay emits exactly one content event per upstream increment
carrying non-empty text, in arrival order with the text forwarded
verbatim; increments without content yield no event; and exactly one
terminal done event — distinct by construction from every content event —
follows all content events once upstream is exhausted. -/
theorem stream_relay_events (chunks : List StreamChunk) :
    generate chunks
      = (chunks.filterMap chunkContent).map SSEEvent.content ++ [SSEEvent.done]
    ∧ (generate chunks).count SSEEvent.done = 1 := by
  have h1 : generate chunks
      = (chunks.filterMap chunkContent).map SSEEvent.content ++ [SSEEvent.done] := by
    induction chunks with
    | nil => rfl
    | cons c rest ih =>
      cases hc : chunkContent c with
      | none => simp [generate, hc, ih]
      | some s => simp [generate, hc, ih]
  refine ⟨h1, ?_⟩
  rw [h1, List.count_append]
  have h2 : ((chunks.filterMap chunkContent).map SSEEvent.content).count SSEEvent.done
      = 0 := by
    rw [List.count_eq_zero]
    intro hmem
    rcases List.mem_map.mp hmem with ⟨s, _, hs⟩
    exact SSEEvent.noConfusion hs
  rw [h2]
  rfl

/-- C4: the mapping copies the three usage counters verbatim from the
provider response and takes the first choice's message text as the
answer; when the usage object is absent the mapping fails — it never
substitutes a default. -/
theorem qa_usage_verbatim (chat_response : ChatResponse) (fid q : String)
    (choice : ChatChoice) (rest : List ChatChoice) (u : Usage)
    (hc : chat_response.choices = choice :: rest)
    (hu : chat_response.usage = some u) :
    format_qa_response chat_response fid q
      = some { answer := choice.message.content
               model := chat_response.model
               usage := u
               file_id := fid
               question := q }
    ∧ ∀ r2 : ChatResponse, r2.usage = none → format_qa_response r2 fid q = none := by
  constructor
  · simp [format_qa_response, hc, hu]
  · intro r2 h2
    cases hx : r2.choices with
    | nil => simp [format_qa_response, hx, h2]
    | cons a l => simp [format_qa_response, hx, h2]

/-- Witness for C4: a concrete response with usage present maps verbatim,
and one with usage absent fails. -/
theorem qa_usage_verbatim_witness :
    format_qa_response
        ⟨[⟨⟨"the answer"⟩⟩], "mistral-small-latest", some ⟨100, 50, 150⟩⟩
        "file-123" "what?"
      = some ⟨"the answer", "mistral-small-latest", ⟨100, 50, 150⟩, "file-123", "what?"⟩
    ∧ format_qa_response ⟨[⟨⟨"x"⟩⟩], "m", none⟩ "file-123" "what?" = none := by
  constructor
  · exact (qa_usage_verbatim ⟨[⟨⟨"the answer"⟩⟩], "mistral-small-latest", some ⟨100, 50, 150⟩⟩
      "file-123" "what?" ⟨⟨"the answer"⟩⟩ [] ⟨100, 50, 150⟩ rfl rfl).1
  · exact (qa_usage_verbatim ⟨[⟨⟨"the answer"⟩⟩], "mistral-small-latest", some ⟨100, 50, 150⟩⟩
      "file-123" "what?" ⟨⟨"the answer"⟩⟩ [] ⟨100, 50, 150⟩ rfl rfl).2
      ⟨[⟨⟨"x"⟩⟩], "m", none⟩ rfl

/-- Helper for C5: the image key of one formatted page is present with
value `s` iff the source attribute was exactly `s` and non-empty. -/
theorem format_ocr_page_image (page : OCRSourcePage) (s : String) :
    (format_ocr_page page).image_base64 = some s
      ↔ (page.image_base64 = some s ∧ s ≠ "") := by
  cases hp : page.image_base64 with
  | none => simp [format_ocr_page, hp]
  | some t =>
    by_cases ht : t = ""
    · subst ht
      simp [format_ocr_page, hp]
      intro h
      exact h.symm
    · simp [format_ocr_page, hp, ht]
      intro h
      exact h ▸ ht

/-- C5: the OCR mapping pairs each source page with the output record at
the same position (so page order is preserved and nothing is added or
dropped), maps index and markdown unchanged, and the output record
carries the image payload key — with the source's own value — if and only
if the source page provided a non-empty image value. -/
theorem ocr_pages_mapping (pages : List OCRSourcePage) :
    List.Forall₂
      (fun page q =>
        q.index = page.index ∧ q.markdown = page.markdown ∧
        ∀ s : String, q.image_base64 = some s ↔ (page.image_base64 = some s ∧ s ≠ ""))
      pages (format_ocr_pages pages) := by
  induction pages with
  | nil => exact List.Forall₂.nil
  | cons page rest ih =>
    exact List.Forall₂.cons ⟨rfl, rfl, fun s => format_ocr_page_image page s⟩ ih

/-- C8: whatever the adapter upload's outcome — success or failure — the
staged temporary file no longer exists when the staging section exits,
and the outcome itself passes through unchanged. -/
theorem upload_temp_cleanup (upload_file : Except String ProviderFile) :
    (upload_document_staging upload_file).2 = false
    ∧ (upload_document_staging upload_file).1 = upload_file := by
  cases upload_file <;> exact ⟨rfl, rfl⟩

/-- C9 counterexample: with the adapter uninitialized, the health-check
call — an inbound call — answers with a successful report carrying
`mistral_service_initialized = false`, not with the fixed
"service not initialized" error the claim requires of every inbound
call. -/
theorem uninit_health_not_error :
    handleWithoutService Endpoint.health_check
      = (HandlerResult.healthReport "healthy" false, false)
    ∧ (handleWithoutService Endpoint.health_check).1
      ≠ HandlerResult.httpError 500 "mistral service not initialized" := by
  refine ⟨rfl, ?_⟩
  intro h
  exact HandlerResult.noConfusion h

/-- C9 (amended): with the adapter uninitialized, every inbound call
except the static root document and the health check is rejected with the
same fixed "mistral service not initialized" error; no call — those two
included — invokes any provider operation; and the health check reports
the uninitialized state instead of erroring. -/
theorem uninit_service_behaviour (e : Endpoint) :
    (e ≠ Endpoint.root → e ≠ Endpoint.health_check →
        handleWithoutService e
          = (HandlerResult.httpError 500 "mistral service not initialized", false))
    ∧ (handleWithoutService e).2 = false
    ∧ handleWithoutService Endpoint.health_check
        = (HandlerResult.healthReport "healthy" false, false) := by
  refine ⟨?_, ?_, rfl⟩
  · intro h1 h2
    cases e <;> first | rfl | exact absurd rfl h1 | exact absurd rfl h2
  · cases e <;> rfl

/-- Witness for C9 at the upload endpoint. -/
theorem uninit_service_behaviour_witness :
    handleWithoutService Endpoint.upload_document
      = (HandlerResult.httpError 500 "mistral service not initialized", false) :=
  (uninit_service_behaviour Endpoint.upload_document).1 (by decide) (by decide)

end LaboRare
